import Mathlib

/-!
Shallow embedding of the bootstrap-performance engine in `src/js/src/lowry.js`
(the `js` package of the lowry repository).  JavaScript floating-point numbers
are modelled as exact real numbers; mathjs `Unit` quantities are modelled by
their magnitude in one fixed unit per dimension (feet, feet per second for the
internal speed computations, knots at the tas/cas boundary, pound-force,
seconds, Kelvin or degrees Fahrenheit as noted at each definition).
-/

namespace LowrySpec

noncomputable section

/-- Sea-level density `rho0 = 0.00237 slug/ft^3` (magnitude). -/
def rho0 : ℝ := 0.00237

/-- Magnitude conversion factor from knots to ft/s used by mathjs
(`knot = 0.514444 m/s`, `ft = 0.3048 m`). -/
def knotToFps : ℝ := 0.514444 / 0.3048

/-- Sea-level standard temperature `T0 = 288.15 K` (magnitude in Kelvin). -/
def T0K : ℝ := 288.15

/-- Standard lapse rate `0.001981 K/ft`. -/
def lapseRateKperFt : ℝ := 0.001981

/-- A temperature argument as the JavaScript code receives it: absent
(`undefined`), a raw number in implicit degrees Fahrenheit, or a mathjs
`Unit` carrying degrees Fahrenheit.  A raw `0` is falsy in JavaScript while
a `Unit` object is always truthy, so the two forms must be distinguished. -/
inductive TempArg where
  | absent : TempArg
  | raw : ℝ → TempArg
  | unitF : ℝ → TempArg

/-- mathjs conversion of a degrees-Fahrenheit magnitude to Kelvin. -/
def degFtoK (t : ℝ) : ℝ := (t + 459.67) * 5 / 9

/-- Conversion of a Kelvin magnitude to degrees Fahrenheit. -/
def kelvinToDegF (k : ℝ) : ℝ := k * 9 / 5 - 459.67

/-- `standardTemperature(pressureAltitude)`: `T0 - h * lapseRate`, in Kelvin. -/
def standardTemperatureK (h : ℝ) : ℝ := T0K - lapseRateKperFt * h

/-- The supplied-temperature branch of `relativeDensity` ([PoLA] eq F.2):
`(518.7 / (T_F + 459.7)) * (1 - 6.8752e-6 * h)`. -/
def tempBranch (h t : ℝ) : ℝ := 518.7 / (t + 459.7) * (1 - 6.8752e-6 * h)

/-- The temperature-absent branch of `relativeDensity` ([PoLA] eq 1.10):
`(1 - h/145457) ^ 4.25635`. -/
def pressureBranch (h : ℝ) : ℝ := Real.rpow (1 - h / 145457) 4.25635

/-- `relativeDensity(h, T)`.  The JavaScript guard is `if (T)`: an absent
temperature and a raw number `0` are falsy and fall through to the
pressure-altitude formula; a `Unit` is always truthy. -/
def relativeDensity (h : ℝ) (T : TempArg) : ℝ :=
  match T with
  | .absent => pressureBranch h
  | .raw t => if t = 0 then pressureBranch h else tempBranch h t
  | .unitF t => tempBranch h t

/-- `density(h, T) = rho0 * relativeDensity(h, T)`. -/
def density (h : ℝ) (T : TempArg) : ℝ := rho0 * relativeDensity h T

/-- `tas(V_C, h, T) = V_C / sqrt(sigma)` (magnitude in knots in and out). -/
def tas (V h : ℝ) (T : TempArg) : ℝ := V / Real.sqrt (relativeDensity h T)

/-- `cas(V, h, T) = V * sqrt(sigma)` (magnitude preserved per unit). -/
def cas (V h : ℝ) (T : TempArg) : ℝ := V * Real.sqrt (relativeDensity h T)

/-- `tapeline(dh, h, T)` ([PoLA] eq F.4): `dh * T / T_std(h)` with the
temperatures compared on the absolute (Kelvin) scale; a falsy `T` (absent or
raw `0`) is replaced by `standardTemperature(h)`. -/
def tapeline (dh h : ℝ) (T : TempArg) : ℝ :=
  let tK : ℝ :=
    match T with
    | .absent => standardTemperatureK h
    | .raw t => if t = 0 then standardTemperatureK h else degFtoK t
    | .unitF t => degFtoK t
  tK / standardTemperatureK h * dh

/-- `flightAngle(V, dh, dt) = asin(dh / (V * dt))` (radians; the JavaScript
code converts the result to a degree `Unit`, and mathjs converts back to
radians inside `sin`/`tan`, so magnitudes in radians are faithful). -/
def flightAngle (V dh dt : ℝ) : ℝ := Real.arcsin (dh / (V * dt))

/-- `dropoffFactor(h, T) = (sigma - C) / (1 - C)` ([Bootstrap] eq 2);
`C` is the instance field `this.C`. -/
def dropoffFactor (C h : ℝ) (T : TempArg) : ℝ :=
  (relativeDensity h T - C) / (1 - C)

/-- The bootstrap data plate in implicit British units, in the good case in
which every coefficient is a number (as produced by flight tests and/or
overrides): the fields of `britishPlate`. -/
structure Plate where
  S : ℝ
  A : ℝ
  M0 : ℝ
  C : ℝ
  d : ℝ
  C_D0 : ℝ
  e : ℝ
  b : ℝ
  m : ℝ

/-- The record returned by `Lowry.composites`. -/
structure Composites where
  E : ℝ
  F : ℝ
  G : ℝ
  H : ℝ
  K : ℝ
  Q : ℝ
  R : ℝ
  U : ℝ

/-- `Lowry.composites(W, h, T)`: base composites `E0 .. U0` ([Bootstrap]
pp. 27-28) recomputed from the plate with the current weight `W`, then
scaled by `phi` and `sigma`. -/
def composites (p : Plate) (W h : ℝ) (T : TempArg) : Composites :=
  let W_ := W
  let phi := dropoffFactor p.C h T
  let sigma := relativeDensity h T
  let E0 := p.m * p.M0 * 2 * Real.pi / p.d
  let F0 := rho0 * p.d * p.d * p.b
  let G0 := rho0 * p.S * p.C_D0 / 2
  let H0 := 2 * W_ * W_ / (rho0 * p.S * Real.pi * p.e * p.A)
  let K0 := F0 - G0
  let Q0 := E0 / K0
  let R0 := H0 / K0
  let U0 := H0 / G0
  { E := phi * E0
    F := sigma * F0
    G := sigma * G0
    H := H0 / sigma
    K := sigma * K0
    Q := phi * Q0 / sigma
    R := R0 / (sigma * sigma)
    U := U0 / (sigma * sigma) }

/-- The record returned by `Lowry.Vspeeds`.  `Vx`, `Vbg`, `Vmd` are always
assigned by the code; `Vy` and `VM` are `undefined` (here `none`) when their
radicand is non-positive or the resulting squared speed is non-positive
(the code stores `NaN` in the latter case, which is falsy at the final
`v.Vy ? cas(v.Vy, h, T) : undefined` and so also comes out `undefined`).
Magnitudes are in ft/s; the code converts the same quantities for display
to knots (`kcas`), a fixed positive factor. -/
structure VSpeedsOut where
  Vx : ℝ
  Vy : Option ℝ
  VM : Option ℝ
  Vbg : ℝ
  Vmd : ℝ

/-- `Lowry.Vspeeds(W, h, T)` ([PoLA] eq 7.24).  `math.pow(x, 0.25)` is
modelled as `sqrt (sqrt x)`; every theorem below that touches `Vx` works
under hypotheses forcing `-R > 0`, where this agrees with the code (for
`-R < 0` mathjs would produce a complex number, which is outside this
real-valued model and is reachable only through a plate violating the
spec's invariant `b < 0`). -/
def Vspeeds (p : Plate) (W h : ℝ) (T : TempArg) : VSpeedsOut :=
  let c := composites p W h T
  let vy : Option ℝ :=
    let tmp := c.Q * c.Q / 36 - c.R / 3
    if 0 < tmp then
      let t2 := -c.Q / 6 + Real.sqrt tmp
      if 0 < t2 then some (Real.sqrt t2) else none
    else none
  let vM : Option ℝ :=
    let tmp := c.Q * c.Q / 4 + c.R
    if 0 < tmp then
      let t2 := -c.Q / 2 + Real.sqrt tmp
      if 0 < t2 then some (Real.sqrt t2) else none
    else none
  let vbg := Real.sqrt (Real.sqrt c.U)
  let vmd := Real.sqrt (Real.sqrt (c.U / 3))
  { Vx := cas (Real.sqrt (Real.sqrt (-c.R))) h T
    Vy := vy.map (fun x => cas x h T)
    VM := vM.map (fun x => cas x h T)
    Vbg := cas vbg h T
    Vmd := cas vmd h T }

/-- The record returned by `Lowry.performance`: the code builds `y = {}`,
assigns only `y.T = c.E + c.F * V2`, and returns it, so the record has a
single field. -/
structure PerfOut where
  T : ℝ

/-- `Lowry.performance(V, W, h, T)`: `V2 = math.lower(math.multiply(V, V),
'ft/s')`, which for a raw-number `V` is just `V * V` (for a dimensional `V`
mathjs would throw, since `V*V` is not a velocity), and the only output
assigned is `y.T = c.E + c.F * V2`. -/
def performance (p : Plate) (V W h : ℝ) (T : TempArg) : PerfOut :=
  let c := composites p W h T
  { T := c.E + c.F * (V * V) }

/-- The JavaScript nullish-coalescing operator `x ?? y` on optional inputs:
the left value when supplied, otherwise the right. -/
def nullish (x y : Option ℝ) : Option ℝ :=
  match x with
  | some v => some v
  | none => y

/-- The `drag` flight-test record (steady best-glide observation). -/
structure DragData where
  W : ℝ
  h : ℝ
  T : TempArg
  dh : ℝ
  dt : ℝ
  V_Cbg : ℝ

/-- The `thrust` flight-test record (best-angle climb at full throttle). -/
structure ThrustData where
  W : ℝ
  h : ℝ
  T : TempArg
  V_Cx : ℝ
  V_CM : ℝ

/-- The aircraft input record handed to `new Lowry(data)`, already in
implicit British units (`toBritish`). -/
structure InputData where
  S : ℝ
  A : Option ℝ
  B : Option ℝ
  M0 : Option ℝ
  P0 : Option ℝ
  n0 : Option ℝ
  C : Option ℝ
  d : ℝ
  drag : Option DragData
  thrust : Option ThrustData
  C_D0 : Option ℝ
  e : Option ℝ
  b : Option ℝ
  m : Option ℝ

/-- The state of a constructed `Lowry` instance: the resolved direct
constants plus the four plate coefficients, which stay `undefined` (`none`)
when neither a flight test nor an override supplies them. -/
structure LowryInst where
  S_ : ℝ
  A : ℝ
  M0_ : ℝ
  C : ℝ
  d_ : ℝ
  C_D0 : Option ℝ
  e : Option ℝ
  b : Option ℝ
  m : Option ℝ

/-- The drag branch of the constructor ([PoLA] appendix F / eq 9.41-9.42):
from a `DragData` record compute `(C_D0, e)`.  `Vbg` is the true airspeed
lowered to ft/s (the code's `tas(...).toNumber('ft/s')`, a knots-to-ft/s
magnitude change), `dh` the tapeline altitude loss, `gamma_bg` the glide
angle; the code deliberately uses `+W` where [PoLA] eq 9.41 prints `-W`. -/
def dragDerive (S A : ℝ) (dr : DragData) : ℝ × ℝ :=
  let sigma := relativeDensity dr.h dr.T
  let dh := tapeline dr.dh dr.h dr.T
  let Vbg := knotToFps * tas dr.V_Cbg dr.h dr.T
  let gamma_bg := flightAngle Vbg dh dr.dt
  let rho_ := rho0 * sigma
  let cd0 := dr.W * Real.sin gamma_bg / (rho_ * S * Vbg * Vbg)
  (cd0, 4 * cd0 / (Real.pi * A * Real.tan gamma_bg ^ 2))

/-- The thrust branch of the constructor ([Bootstrap] eq 8-9): from a
`ThrustData` record and the already-derived `C_D0` and `e` compute
`(b, m)`.  In JavaScript a missing `C_D0`/`e` would propagate `NaN`; that
junk path (thrust test without drag test or overrides) is modelled with a
`0` placeholder and is exercised by no theorem below. -/
def thrustDerive (S A M0 C d cd0 e : ℝ) (th : ThrustData) : ℝ × ℝ :=
  let W2 := th.W ^ 2
  let rho_ := rho0 * relativeDensity th.h th.T
  let Vx_ := knotToFps * tas th.V_Cx th.h th.T
  let Vx4_ := Vx_ ^ 4
  let bv := S * cd0 / (2 * d * d) -
    2 * W2 / (rho_ * rho_ * d * d * S * Real.pi * e * A * Vx4_)
  let V_M2_ := (knotToFps * tas th.V_CM th.h th.T) ^ 2
  let phi := dropoffFactor C th.h th.T
  let mv := d * W2 / (Real.pi * M0 * phi * rho_ * S * Real.pi * e * A) *
    (1 / V_M2_ + V_M2_ / Vx4_)
  (bv, mv)

/-- The `Lowry` constructor: resolve `A`, `M0`, `C` ([Bootstrap] pg 25),
run the drag branch then the thrust branch when the records are present,
then apply the mock overrides `this.C_D0 = data.C_D0 ?? this.C_D0` (and
likewise for `e`, `b`, `m`) last, so a supplied coefficient wins.  A `getD 0`
stands for JavaScript `undefined`/`NaN` arithmetic on the junk paths
(missing `B` with missing `A`, etc.), which no theorem exercises. -/
def mkLowry (data : InputData) : LowryInst :=
  let S := data.S
  let A := data.A.getD ((data.B.getD 0) * (data.B.getD 0) / data.S)
  let M0 := data.M0.getD (data.P0.getD 0 / (2 * Real.pi * data.n0.getD 0))
  let C := data.C.getD 0.12
  let dragRes : Option (ℝ × ℝ) := data.drag.map (dragDerive S A)
  let cd0 : Option ℝ := dragRes.map Prod.fst
  let e0 : Option ℝ := dragRes.map Prod.snd
  let thrustRes : Option (ℝ × ℝ) :=
    data.thrust.map (thrustDerive S A M0 C data.d (cd0.getD 0) (e0.getD 0))
  { S_ := S
    A := A
    M0_ := M0
    C := C
    d_ := data.d
    C_D0 := nullish data.C_D0 cd0
    e := nullish data.e e0
    b := nullish data.b (thrustRes.map Prod.fst)
    m := nullish data.m (thrustRes.map Prod.snd) }

/-- Unfolding `relativeDensity` at a truthy raw temperature. -/
lemma relativeDensity_raw_of_ne (h t : ℝ) (ht : t ≠ 0) :
    relativeDensity h (TempArg.raw t) = tempBranch h t := by
  simp [relativeDensity, ht]

/-- At sea level and 59 degF the relative density is exactly 1. -/
lemma relativeDensity_sl59 : relativeDensity 0 (TempArg.raw 59) = 1 := by
  rw [relativeDensity_raw_of_ne 0 59 (by norm_num)]
  simp only [tempBranch]
  norm_num

/-- Relative density along the standard-temperature profile: the supplied
temperature is `standardTemperature(h)` (a Kelvin `Unit`, hence truthy),
converted by mathjs to its degrees-Fahrenheit magnitude. -/
def sigmaStd (h : ℝ) : ℝ :=
  relativeDensity h (TempArg.unitF (kelvinToDegF (standardTemperatureK h)))

/-- Claim C1: the performance evaluator is supposed to return all ten
outputs `T, P_av, Dp, Di, D, P_re, P_xs, T_xs, ROC, gamma` as dimensional
quantities with `V` converted to TAS internally, but the code builds an
object with the single raw-number entry `T = E + F * V^2`, using `V`
unconverted; its own test `[PoLA] table 7.5` expects all ten. -/
theorem claim_C1_performance_single_output (p : Plate) (V W h : ℝ) (T : TempArg) :
    performance p V W h T =
      ⟨(composites p W h T).E + (composites p W h T).F * (V * V)⟩ := rfl

/-- Claim C4: the composite evaluator returns `E = phi*E0`, `F = sigma*F0`,
`G = sigma*G0`, `H = H0/sigma`, `K = sigma*K0`, `Q = (phi/sigma)*Q0`,
`R = R0/sigma^2`, `U = U0/sigma^2` with the base composites recomputed from
the plate at the current weight, so `E, F, G, K, Q` are independent of `W`
and `H, R, U` scale as `W^2`. -/
theorem claim_C4_composites (p : Plate) (W W' h k : ℝ) (T : TempArg) :
    (composites p W h T).E =
      dropoffFactor p.C h T * (p.m * p.M0 * 2 * Real.pi / p.d) ∧
    (composites p W h T).F = relativeDensity h T * (rho0 * p.d * p.d * p.b) ∧
    (composites p W h T).G = relativeDensity h T * (rho0 * p.S * p.C_D0 / 2) ∧
    (composites p W h T).H =
      2 * W * W / (rho0 * p.S * Real.pi * p.e * p.A) / relativeDensity h T ∧
    (composites p W h T).K = relativeDensity h T *
      (rho0 * p.d * p.d * p.b - rho0 * p.S * p.C_D0 / 2) ∧
    (composites p W h T).Q = dropoffFactor p.C h T *
      (p.m * p.M0 * 2 * Real.pi / p.d /
        (rho0 * p.d * p.d * p.b - rho0 * p.S * p.C_D0 / 2)) /
      relativeDensity h T ∧
    (composites p W h T).R =
      2 * W * W / (rho0 * p.S * Real.pi * p.e * p.A) /
        (rho0 * p.d * p.d * p.b - rho0 * p.S * p.C_D0 / 2) /
      (relativeDensity h T * relativeDensity h T) ∧
    (composites p W h T).U =
      2 * W * W / (rho0 * p.S * Real.pi * p.e * p.A) /
        (rho0 * p.S * p.C_D0 / 2) /
      (relativeDensity h T * relativeDensity h T) ∧
    (composites p W' h T).E = (composites p W h T).E ∧
    (composites p W' h T).F = (composites p W h T).F ∧
    (composites p W' h T).G = (composites p W h T).G ∧
    (composites p W' h T).K = (composites p W h T).K ∧
    (composites p W' h T).Q = (composites p W h T).Q ∧
    (composites p (k * W) h T).H = k ^ 2 * (composites p W h T).H ∧
    (composites p (k * W) h T).R = k ^ 2 * (composites p W h T).R ∧
    (composites p (k * W) h T).U = k ^ 2 * (composites p W h T).U := by
  refine ⟨rfl, rfl, rfl, rfl, rfl, rfl, rfl, rfl, rfl, rfl, rfl, rfl, rfl, ?_, ?_, ?_⟩ <;>
    · simp only [composites]
      ring

/-- Claim C6: `tas` and `cas` are mutually inverse at any point with
positive relative density, with `V_TAS = V_CAS / sqrt sigma` and
`V_CAS = V_TAS * sqrt sigma`. -/
theorem claim_C6_tas_cas_inverse (V h : ℝ) (T : TempArg) (hV : 0 < V)
    (hsig : 0 < relativeDensity h T) :
    tas (cas V h T) h T = V ∧ cas (tas V h T) h T = V ∧
    tas V h T = V / Real.sqrt (relativeDensity h T) ∧
    cas V h T = V * Real.sqrt (relativeDensity h T) := by
  have hs : Real.sqrt (relativeDensity h T) ≠ 0 :=
    ne_of_gt (Real.sqrt_pos.mpr hsig)
  refine ⟨?_, ?_, rfl, rfl⟩ <;>
    · simp only [tas, cas]
      field_simp

/-- Witness for claim C6 at `V = 100 kt`, `h = 0 ft`, `T = 59 degF`. -/
theorem claim_C6_witness :
    tas (cas 100 0 (TempArg.raw 59)) 0 (TempArg.raw 59) = 100 ∧
    cas (tas 100 0 (TempArg.raw 59)) 0 (TempArg.raw 59) = 100 :=
  ⟨(claim_C6_tas_cas_inverse 100 0 (TempArg.raw 59) (by norm_num)
      (by rw [relativeDensity_sl59]; norm_num)).1,
   (claim_C6_tas_cas_inverse 100 0 (TempArg.raw 59) (by norm_num)
      (by rw [relativeDensity_sl59]; norm_num)).2.1⟩

/-- Claim C8: along the standard-temperature profile the relative density
is strictly decreasing in pressure altitude on `[0 ft, 36090 ft]`, and
`density = rho0 * relativeDensity` everywhere. -/
theorem claim_C8_atmosphere (h1 h2 hh : ℝ) (hT : TempArg)
    (hlo : 0 ≤ h1) (hlt : h1 < h2) (hub : h2 ≤ 36090) :
    sigmaStd h2 < sigmaStd h1 ∧
    density hh hT = rho0 * relativeDensity hh hT := by
  refine ⟨?_, rfl⟩
  simp only [sigmaStd, relativeDensity, tempBranch, kelvinToDegF,
    standardTemperatureK, T0K, lapseRateKperFt]
  have hD1 : (0:ℝ) < (288.15 - 0.001981 * h1) * 9 / 5 - 459.67 + 459.7 := by
    nlinarith
  have hD2 : (0:ℝ) < (288.15 - 0.001981 * h2) * 9 / 5 - 459.67 + 459.7 := by
    nlinarith
  rw [div_mul_eq_mul_div, div_mul_eq_mul_div, div_lt_div_iff hD2 hD1]
  nlinarith

/-- Witness for claim C8 at the endpoints of the domain. -/
theorem claim_C8_witness :
    sigmaStd 36090 < sigmaStd 0 ∧
    density 0 (TempArg.raw 59) = rho0 * relativeDensity 0 (TempArg.raw 59) :=
  claim_C8_atmosphere 0 36090 0 (TempArg.raw 59)
    (by norm_num) (by norm_num) (by norm_num)

/-- Claim C10: a temperature supplied as the raw number `0` (0 degF in
implicit British units) is falsy in JavaScript, so `relativeDensity` takes
the temperature-absent branch `(1 - h/145457)^4.25635`, `tapeline`
substitutes the standard temperature, and every caller (`density`, `tas`,
`cas`, `dropoffFactor`, `composites`) behaves as if no temperature were
given. -/
theorem claim_C10_raw_zero_fahrenheit (h dh V W C : ℝ) (p : Plate) :
    relativeDensity h (TempArg.raw 0) = Real.rpow (1 - h / 145457) 4.25635 ∧
    relativeDensity h (TempArg.raw 0) = relativeDensity h TempArg.absent ∧
    tapeline dh h (TempArg.raw 0) = tapeline dh h TempArg.absent ∧
    density h (TempArg.raw 0) = density h TempArg.absent ∧
    tas V h (TempArg.raw 0) = tas V h TempArg.absent ∧
    cas V h (TempArg.raw 0) = cas V h TempArg.absent ∧
    dropoffFactor C h (TempArg.raw 0) = dropoffFactor C h TempArg.absent ∧
    composites p W h (TempArg.raw 0) = composites p W h TempArg.absent := by
  have h1 : relativeDensity h (TempArg.raw 0) = relativeDensity h TempArg.absent := by
    simp [relativeDensity]
  refine ⟨by simp [relativeDensity, pressureBranch], h1, by simp [tapeline],
    ?_, ?_, ?_, ?_, ?_⟩
  · simp [density, h1]
  · simp [tas, h1]
  · simp [cas, h1]
  · simp [dropoffFactor, h1]
  · simp only [composites, dropoffFactor]
    rw [h1]

/-- A concrete data plate for witnesses.  `e` and `M0` are chosen so that
the factors of `pi` in the composite formulas cancel and every composite is
rational; all values satisfy the spec's plate invariants
(`S, A, M0, d, C_D0, e, m > 0`, `0 < C < 1`, `b < 0`). -/
def witnessPlate : Plate :=
  { S := 100000 / 237
    A := 100
    M0 := 5 / Real.pi
    C := 12 / 100
    d := 10
    C_D0 := 1 / 50
    e := 2 / Real.pi
    b := -10 / 237
    m := 1 }

/-- The composites of `witnessPlate` at `W = 10 lbf`, `h = 0 ft`,
`T = 59 degF` (where `sigma = phi = 1`). -/
lemma witness_composites_eval :
    composites witnessPlate 10 0 (TempArg.raw 59) =
      { E := 1, F := -(1 / 100), G := 1 / 100, H := 1, K := -(1 / 50),
        Q := -50, R := -50, U := 100 } := by
  have hpi : Real.pi ≠ 0 := Real.pi_ne_zero
  simp only [composites, witnessPlate, dropoffFactor, relativeDensity_sl59,
    rho0, Composites.mk.injEq]
  refine ⟨?_, ?_, ?_, ?_, ?_, ?_, ?_, ?_⟩ <;>
    · field_simp
      ring

/-- Claim C2: with a plate satisfying the spec's invariants and a positive
relative density, the `Vx` radicand `-R` is always positive (so the
"`Vx` not real" case of the claim never arises), `Vy` and `VM` come out
absent whenever their radicand is negative or the resulting squared speed
is non-positive, and `Vbg`/`Vmd` (which depend only on `U > 0`) are always
returned with positive values. -/
theorem claim_C2_vspeed_absence (p : Plate) (W h : ℝ) (T : TempArg)
    (hS : 0 < p.S) (hCD0 : 0 < p.C_D0) (he : 0 < p.e) (hA : 0 < p.A)
    (hb : p.b < 0) (hW : 0 < W) (hsig : 0 < relativeDensity h T) :
    (composites p W h T).R < 0 ∧
    ((composites p W h T).Q * (composites p W h T).Q / 36 -
          (composites p W h T).R / 3 < 0 ∨
        -(composites p W h T).Q / 6 +
          Real.sqrt ((composites p W h T).Q * (composites p W h T).Q / 36 -
            (composites p W h T).R / 3) ≤ 0 →
      (Vspeeds p W h T).Vy = none) ∧
    ((composites p W h T).Q * (composites p W h T).Q / 4 +
          (composites p W h T).R < 0 ∨
        -(composites p W h T).Q / 2 +
          Real.sqrt ((composites p W h T).Q * (composites p W h T).Q / 4 +
            (composites p W h T).R) ≤ 0 →
      (Vspeeds p W h T).VM = none) ∧
    0 < (Vspeeds p W h T).Vbg ∧ 0 < (Vspeeds p W h T).Vmd := by
  have hrho : (0:ℝ) < rho0 := by norm_num [rho0]
  have hden : 0 < rho0 * p.S * Real.pi * p.e * p.A := by
    have := Real.pi_pos
    positivity
  have hH0 : 0 < 2 * W * W / (rho0 * p.S * Real.pi * p.e * p.A) := by
    apply div_pos (by nlinarith) hden
  have hG0 : 0 < rho0 * p.S * p.C_D0 / 2 := by positivity
  have hF0 : rho0 * p.d * p.d * p.b ≤ 0 := by
    apply mul_nonpos_of_nonneg_of_nonpos _ hb.le
    nlinarith [mul_self_nonneg p.d]
  have hK0 : rho0 * p.d * p.d * p.b - rho0 * p.S * p.C_D0 / 2 < 0 := by
    linarith
  have hsig2 : 0 < relativeDensity h T * relativeDensity h T :=
    mul_pos hsig hsig
  have hR : (composites p W h T).R < 0 := by
    simp only [composites]
    exact div_neg_of_neg_of_pos (div_neg_of_pos_of_neg hH0 hK0) hsig2
  have hU : 0 < (composites p W h T).U := by
    simp only [composites]
    exact div_pos (div_pos hH0 hG0) hsig2
  refine ⟨hR, ?_, ?_, ?_, ?_⟩
  · intro hcase
    simp only [Vspeeds]
    split_ifs with h1 h2
    · rcases hcase with hc | hc
      · linarith
      · simp only [composites] at h2 hc
        linarith
    · simp
    · simp
  · intro hcase
    simp only [Vspeeds]
    split_ifs with h1 h2
    · rcases hcase with hc | hc
      · linarith
      · simp only [composites] at h2 hc
        linarith
    · simp
    · simp
  · simp only [Vspeeds, cas]
    exact mul_pos (Real.sqrt_pos.mpr (Real.sqrt_pos.mpr hU))
      (Real.sqrt_pos.mpr hsig)
  · simp only [Vspeeds, cas]
    exact mul_pos (Real.sqrt_pos.mpr (Real.sqrt_pos.mpr (by linarith)))
      (Real.sqrt_pos.mpr hsig)

/-- Witness for claim C2 on `witnessPlate` at `W = 10`, `h = 0`,
`T = 59 degF`. -/
theorem claim_C2_witness :
    (composites witnessPlate 10 0 (TempArg.raw 59)).R < 0 ∧
    ((composites witnessPlate 10 0 (TempArg.raw 59)).Q *
          (composites witnessPlate 10 0 (TempArg.raw 59)).Q / 36 -
          (composites witnessPlate 10 0 (TempArg.raw 59)).R / 3 < 0 ∨
        -(composites witnessPlate 10 0 (TempArg.raw 59)).Q / 6 +
          Real.sqrt ((composites witnessPlate 10 0 (TempArg.raw 59)).Q *
            (composites witnessPlate 10 0 (TempArg.raw 59)).Q / 36 -
            (composites witnessPlate 10 0 (TempArg.raw 59)).R / 3) ≤ 0 →
      (Vspeeds witnessPlate 10 0 (TempArg.raw 59)).Vy = none) ∧
    ((composites witnessPlate 10 0 (TempArg.raw 59)).Q *
          (composites witnessPlate 10 0 (TempArg.raw 59)).Q / 4 +
          (composites witnessPlate 10 0 (TempArg.raw 59)).R < 0 ∨
        -(composites witnessPlate 10 0 (TempArg.raw 59)).Q / 2 +
          Real.sqrt ((composites witnessPlate 10 0 (TempArg.raw 59)).Q *
            (composites witnessPlate 10 0 (TempArg.raw 59)).Q / 4 +
            (composites witnessPlate 10 0 (TempArg.raw 59)).R) ≤ 0 →
      (Vspeeds witnessPlate 10 0 (TempArg.raw 59)).VM = none) ∧
    0 < (Vspeeds witnessPlate 10 0 (TempArg.raw 59)).Vbg ∧
    0 < (Vspeeds witnessPlate 10 0 (TempArg.raw 59)).Vmd :=
  claim_C2_vspeed_absence witnessPlate 10 0 (TempArg.raw 59)
    (by simp only [witnessPlate]; norm_num)
    (by simp only [witnessPlate]; norm_num)
    (by simp only [witnessPlate]; positivity)
    (by simp only [witnessPlate]; norm_num)
    (by simp only [witnessPlate]; norm_num)
    (by norm_num)
    (by rw [relativeDensity_sl59]; norm_num)

/-- Claim C3: below the absolute ceiling (all radicands and squared speeds
positive) the V-speed solver returns exactly
`Vx = CAS(sqrt((-R)^(1/2)))`, `Vy = CAS(sqrt(-Q/6 + sqrt(Q^2/36 - R/3)))`,
`VM = CAS(sqrt(-Q/2 + sqrt(Q^2/4 + R)))`, `Vbg = CAS(sqrt(U^(1/2)))` and
`Vmd = CAS(sqrt((U/3)^(1/2)))`. -/
theorem claim_C3_vspeed_formulas (p : Plate) (W h : ℝ) (T : TempArg)
    (hR : (composites p W h T).R < 0)
    (hy2 : 0 < -(composites p W h T).Q / 6 +
      Real.sqrt ((composites p W h T).Q * (composites p W h T).Q / 36 -
        (composites p W h T).R / 3))
    (hm1 : 0 < (composites p W h T).Q * (composites p W h T).Q / 4 +
      (composites p W h T).R)
    (hm2 : 0 < -(composites p W h T).Q / 2 +
      Real.sqrt ((composites p W h T).Q * (composites p W h T).Q / 4 +
        (composites p W h T).R)) :
    (Vspeeds p W h T).Vx =
      cas (Real.sqrt (Real.sqrt (-(composites p W h T).R))) h T ∧
    (Vspeeds p W h T).Vy = some (cas (Real.sqrt (-(composites p W h T).Q / 6 +
      Real.sqrt ((composites p W h T).Q * (composites p W h T).Q / 36 -
        (composites p W h T).R / 3))) h T) ∧
    (Vspeeds p W h T).VM = some (cas (Real.sqrt (-(composites p W h T).Q / 2 +
      Real.sqrt ((composites p W h T).Q * (composites p W h T).Q / 4 +
        (composites p W h T).R))) h T) ∧
    (Vspeeds p W h T).Vbg =
      cas (Real.sqrt (Real.sqrt ((composites p W h T).U))) h T ∧
    (Vspeeds p W h T).Vmd =
      cas (Real.sqrt (Real.sqrt ((composites p W h T).U / 3))) h T := by
  have hy1 : 0 < (composites p W h T).Q * (composites p W h T).Q / 36 -
      (composites p W h T).R / 3 := by
    nlinarith [mul_self_nonneg (composites p W h T).Q]
  refine ⟨rfl, ?_, ?_, rfl, rfl⟩
  · show (Option.map _ _) = _
    simp only [Vspeeds]
    rw [if_pos hy1, if_pos hy2]
    rfl
  · show (Option.map _ _) = _
    simp only [Vspeeds]
    rw [if_pos hm1, if_pos hm2]
    rfl

/-- Witness for claim C3 on `witnessPlate` at `W = 10`, `h = 0`,
`T = 59 degF`. -/
theorem claim_C3_witness :
    (Vspeeds witnessPlate 10 0 (TempArg.raw 59)).Vx =
      cas (Real.sqrt (Real.sqrt
        (-(composites witnessPlate 10 0 (TempArg.raw 59)).R))) 0
        (TempArg.raw 59) ∧
    (Vspeeds witnessPlate 10 0 (TempArg.raw 59)).Vy = some
      (cas (Real.sqrt (-(composites witnessPlate 10 0 (TempArg.raw 59)).Q / 6 +
        Real.sqrt ((composites witnessPlate 10 0 (TempArg.raw 59)).Q *
          (composites witnessPlate 10 0 (TempArg.raw 59)).Q / 36 -
          (composites witnessPlate 10 0 (TempArg.raw 59)).R / 3))) 0
        (TempArg.raw 59)) ∧
    (Vspeeds witnessPlate 10 0 (TempArg.raw 59)).VM = some
      (cas (Real.sqrt (-(composites witnessPlate 10 0 (TempArg.raw 59)).Q / 2 +
        Real.sqrt ((composites witnessPlate 10 0 (TempArg.raw 59)).Q *
          (composites witnessPlate 10 0 (TempArg.raw 59)).Q / 4 +
          (composites witnessPlate 10 0 (TempArg.raw 59)).R))) 0
        (TempArg.raw 59)) ∧
    (Vspeeds witnessPlate 10 0 (TempArg.raw 59)).Vbg =
      cas (Real.sqrt (Real.sqrt
        ((composites witnessPlate 10 0 (TempArg.raw 59)).U))) 0
        (TempArg.raw 59) ∧
    (Vspeeds witnessPlate 10 0 (TempArg.raw 59)).Vmd =
      cas (Real.sqrt (Real.sqrt
        ((composites witnessPlate 10 0 (TempArg.raw 59)).U / 3))) 0
        (TempArg.raw 59) :=
  claim_C3_vspeed_formulas witnessPlate 10 0 (TempArg.raw 59)
    (by simp only [witness_composites_eval]; norm_num)
    (by simp only [witness_composites_eval]; norm_num; positivity)
    (by simp only [witness_composites_eval]; norm_num)
    (by simp only [witness_composites_eval]; norm_num; positivity)

/-- With `q, r > 0` and `q^2 > 4r` (below the ceiling),
`sqrt r ≤ q/6 + sqrt(q^2/36 + r/3)`: the squared best-angle speed is at
most the squared best-rate speed. -/
lemma sqrt_le_vy_sq (q r : ℝ) (hq : 0 < q) (hr : 0 < r)
    (h4 : 4 * r < q * q) :
    Real.sqrt r ≤ q / 6 + Real.sqrt (q * q / 36 + r / 3) := by
  set s := Real.sqrt r with hs
  have hs0 : 0 ≤ s := Real.sqrt_nonneg r
  have hs2 : s * s = r := Real.mul_self_sqrt hr.le
  have h2s : 2 * s < q := by
    have hsq : (2 * s) ^ 2 < q ^ 2 := by nlinarith
    exact lt_of_pow_lt_pow_left 2 hq.le hsq
  have hs3 : 2 * s / 3 ≤ Real.sqrt (q * q / 36 + r / 3) := by
    rw [show 2 * s / 3 = Real.sqrt ((2 * s / 3) ^ 2) from
      (Real.sqrt_sq (by positivity)).symm]
    apply Real.sqrt_le_sqrt
    nlinarith
  linarith

/-- With `q, r > 0` and `q^2 > 4r`, `q/6 + sqrt(q^2/36 + r/3) ≤
q/2 + sqrt(q^2/4 - r)`: the squared best-rate speed is at most the squared
max-level speed. -/
lemma vy_sq_le_vm_sq (q r : ℝ) (hq : 0 < q) (hr : 0 < r)
    (h4 : 4 * r < q * q) :
    q / 6 + Real.sqrt (q * q / 36 + r / 3) ≤
      q / 2 + Real.sqrt (q * q / 4 - r) := by
  have hA0 : 0 ≤ Real.sqrt (q * q / 36 + r / 3) := Real.sqrt_nonneg _
  have hB0 : 0 ≤ Real.sqrt (q * q / 4 - r) := Real.sqrt_nonneg _
  have hA2 : Real.sqrt (q * q / 36 + r / 3) ^ 2 = q * q / 36 + r / 3 :=
    Real.sq_sqrt (by nlinarith)
  have hB2 : Real.sqrt (q * q / 4 - r) ^ 2 = q * q / 4 - r :=
    Real.sq_sqrt (by nlinarith)
  have key : Real.sqrt (q * q / 36 + r / 3) ≤
      q / 3 + Real.sqrt (q * q / 4 - r) := by
    have hsq : Real.sqrt (q * q / 36 + r / 3) ^ 2 ≤
        (q / 3 + Real.sqrt (q * q / 4 - r)) ^ 2 := by
      nlinarith [mul_nonneg hq.le hB0]
    calc Real.sqrt (q * q / 36 + r / 3)
        = Real.sqrt (Real.sqrt (q * q / 36 + r / 3) ^ 2) :=
          (Real.sqrt_sq hA0).symm
      _ ≤ Real.sqrt ((q / 3 + Real.sqrt (q * q / 4 - r)) ^ 2) :=
          Real.sqrt_le_sqrt hsq
      _ = q / 3 + Real.sqrt (q * q / 4 - r) := Real.sqrt_sq (by positivity)
  linarith

/-- Under the conditions for `VM` to be returned with `R < 0`, the
composite `Q` is negative. -/
lemma Q_neg_of_VM (Qv Rv : ℝ) (hR : Rv < 0) (h1 : 0 < Qv * Qv / 4 + Rv)
    (h2 : 0 < -Qv / 2 + Real.sqrt (Qv * Qv / 4 + Rv)) : Qv < 0 := by
  by_contra hc
  push_neg at hc
  have hlt : Real.sqrt (Qv * Qv / 4 + Rv) < Real.sqrt (Qv * Qv / 4) :=
    Real.sqrt_lt_sqrt h1.le (by linarith)
  have h24 : Real.sqrt (Qv * Qv / 4) = Qv / 2 := by
    rw [show Qv * Qv / 4 = (Qv / 2) ^ 2 by ring, Real.sqrt_sq (by linarith)]
  rw [h24] at hlt
  linarith

/-- Claim C9: at an operating point below the ceiling where all five
V-speeds are returned (positive relative density, `R < 0`, `U > 0`, and the
`VM` guards positive), the returned calibrated speeds satisfy
`Vmd < Vbg` and `Vx ≤ Vy ≤ VM`. -/
theorem claim_C9_vspeed_ordering (p : Plate) (W h : ℝ) (T : TempArg)
    (hsig : 0 < relativeDensity h T)
    (hR : (composites p W h T).R < 0)
    (hU : 0 < (composites p W h T).U)
    (hm1 : 0 < (composites p W h T).Q * (composites p W h T).Q / 4 +
      (composites p W h T).R)
    (hm2 : 0 < -(composites p W h T).Q / 2 +
      Real.sqrt ((composites p W h T).Q * (composites p W h T).Q / 4 +
        (composites p W h T).R)) :
    ∃ vy vm, (Vspeeds p W h T).Vy = some vy ∧
      (Vspeeds p W h T).VM = some vm ∧
      (Vspeeds p W h T).Vmd < (Vspeeds p W h T).Vbg ∧
      (Vspeeds p W h T).Vx ≤ vy ∧ vy ≤ vm := by
  have hQ : (composites p W h T).Q < 0 :=
    Q_neg_of_VM _ _ hR hm1 hm2
  set Qv := (composites p W h T).Q with hQdef
  set Rv := (composites p W h T).R with hRdef
  have hq : 0 < -Qv := by linarith
  have hr : 0 < -Rv := by linarith
  have h4 : 4 * -Rv < -Qv * -Qv := by nlinarith
  have hy1 : 0 < Qv * Qv / 36 - Rv / 3 := by nlinarith
  have hy2 : 0 < -Qv / 6 + Real.sqrt (Qv * Qv / 36 - Rv / 3) := by
    have := Real.sqrt_nonneg (Qv * Qv / 36 - Rv / 3)
    linarith
  have hmap : ∀ x : ℝ, (some x).map (fun v => cas v h T) = some (cas x h T) :=
    fun x => rfl
  refine ⟨cas (Real.sqrt (-Qv / 6 + Real.sqrt (Qv * Qv / 36 - Rv / 3))) h T,
    cas (Real.sqrt (-Qv / 2 + Real.sqrt (Qv * Qv / 4 + Rv))) h T,
    ?_, ?_, ?_, ?_, ?_⟩
  · show (Option.map _ _) = _
    simp only [Vspeeds]
    rw [if_pos hy1, if_pos hy2]
    rfl
  · show (Option.map _ _) = _
    simp only [Vspeeds]
    rw [if_pos hm1, if_pos hm2]
    rfl
  · show cas (Real.sqrt (Real.sqrt ((composites p W h T).U / 3))) h T <
      cas (Real.sqrt (Real.sqrt ((composites p W h T).U))) h T
    apply mul_lt_mul_of_pos_right _ (Real.sqrt_pos.mpr hsig)
    apply Real.sqrt_lt_sqrt (Real.sqrt_nonneg _)
    apply Real.sqrt_lt_sqrt (by positivity)
    linarith
  · show cas (Real.sqrt (Real.sqrt (-Rv))) h T ≤ _
    apply mul_le_mul_of_nonneg_right _ (Real.sqrt_nonneg _)
    apply Real.sqrt_le_sqrt
    have base := sqrt_le_vy_sq (-Qv) (-Rv) hq hr h4
    calc Real.sqrt (-Rv) ≤ -Qv / 6 + Real.sqrt (-Qv * -Qv / 36 + -Rv / 3) :=
        base
      _ = -Qv / 6 + Real.sqrt (Qv * Qv / 36 - Rv / 3) := by ring_nf
  · apply mul_le_mul_of_nonneg_right _ (Real.sqrt_nonneg _)
    apply Real.sqrt_le_sqrt
    have base := vy_sq_le_vm_sq (-Qv) (-Rv) hq hr h4
    have e1 : -Qv * -Qv / 36 + -Rv / 3 = Qv * Qv / 36 - Rv / 3 := by ring
    have e2 : -Qv * -Qv / 4 - -Rv = Qv * Qv / 4 + Rv := by ring
    rw [e1, e2] at base
    linarith

/-- Witness for claim C9 on `witnessPlate` at `W = 10`, `h = 0`,
`T = 59 degF`. -/
theorem claim_C9_witness :
    ∃ vy vm, (Vspeeds witnessPlate 10 0 (TempArg.raw 59)).Vy = some vy ∧
      (Vspeeds witnessPlate 10 0 (TempArg.raw 59)).VM = some vm ∧
      (Vspeeds witnessPlate 10 0 (TempArg.raw 59)).Vmd <
        (Vspeeds witnessPlate 10 0 (TempArg.raw 59)).Vbg ∧
      (Vspeeds witnessPlate 10 0 (TempArg.raw 59)).Vx ≤ vy ∧ vy ≤ vm :=
  claim_C9_vspeed_ordering witnessPlate 10 0 (TempArg.raw 59)
    (by rw [relativeDensity_sl59]; norm_num)
    (by simp only [witness_composites_eval]; norm_num)
    (by simp only [witness_composites_eval]; norm_num)
    (by simp only [witness_composites_eval]; norm_num)
    (by simp only [witness_composites_eval]; norm_num; positivity)

/-- The best-glide true airspeed of a drag test in ft/s, evaluated at the
test's `(h, T)` (the spec's `V_bg = TAS(V_Cbg, h, T)`). -/
def testVbg (dr : DragData) : ℝ := knotToFps * tas dr.V_Cbg dr.h dr.T

/-- The glide angle of a drag test, from the tapeline altitude loss at the
test's `(h, T)` (the spec's `gamma_bg = arcsin(dh_tape / (V_bg dt))`). -/
def testGamma (dr : DragData) : ℝ :=
  flightAngle (testVbg dr) (tapeline dr.dh dr.h dr.T) dr.dt

/-- The spec's formula `C_D0 = +W sin(gamma_bg) / (rho S V_bg^2)`, with
`rho`, `V_bg` and `gamma_bg` evaluated at the test's `(h, T)`. -/
def specDragCD0 (S : ℝ) (dr : DragData) : ℝ :=
  dr.W * Real.sin (testGamma dr) / (density dr.h dr.T * S * testVbg dr ^ 2)

/-- The spec's formula `e = 4 C_D0 / (pi A tan^2(gamma_bg))`. -/
def specDragE (S A : ℝ) (dr : DragData) : ℝ :=
  4 * specDragCD0 S dr / (Real.pi * A * Real.tan (testGamma dr) ^ 2)

/-- The drag branch of the constructor computes exactly the spec's `C_D0`. -/
lemma dragDerive_fst (S A : ℝ) (dr : DragData) :
    (dragDerive S A dr).1 = specDragCD0 S dr := by
  simp only [dragDerive, specDragCD0, testVbg, testGamma, density]
  ring

/-- The drag branch of the constructor computes exactly the spec's `e`. -/
lemma dragDerive_snd (S A : ℝ) (dr : DragData) :
    (dragDerive S A dr).2 = specDragE S A dr := by
  simp only [dragDerive, specDragE, specDragCD0, testVbg, testGamma, density]
  ring

/-- Claim C5: for a drag test with positive weight, density, wing area and
best-glide TAS and a glide angle in `(0, pi/2)`, the plate builder derives
`C_D0 = +W sin(gamma_bg) / (rho S V_bg^2)` (positive, since the engine uses
`+W` where the reference text misprints `-W`) and
`e = 4 C_D0 / (pi A tan^2 gamma_bg)`, with `rho`, `V_bg` and the tapeline
`dh` inside `gamma_bg` all evaluated at the test's `(h, T)`. -/
theorem claim_C5_drag_plate (i : InputData) (dr : DragData)
    (hdrag : i.drag = some dr) (hov1 : i.C_D0 = none) (hov2 : i.e = none)
    (hW : 0 < dr.W) (hrho : 0 < density dr.h dr.T) (hS : 0 < i.S)
    (hV : 0 < testVbg dr) (hg1 : 0 < testGamma dr)
    (hg2 : testGamma dr < Real.pi / 2) :
    (mkLowry i).C_D0 = some (specDragCD0 i.S dr) ∧
    0 < specDragCD0 i.S dr ∧
    (mkLowry i).e = some (specDragE i.S (mkLowry i).A dr) := by
  refine ⟨?_, ?_, ?_⟩
  · show nullish i.C_D0 _ = _
    rw [hov1, hdrag]
    simp only [nullish, Option.map_some']
    exact congrArg some (dragDerive_fst _ _ dr)
  · have hsin : 0 < Real.sin (testGamma dr) :=
      Real.sin_pos_of_pos_of_lt_pi hg1 (by linarith [Real.pi_pos])
    have hden : 0 < density dr.h dr.T * i.S * testVbg dr ^ 2 :=
      mul_pos (mul_pos hrho hS) (pow_pos hV 2)
    exact div_pos (mul_pos hW hsin) hden
  · show nullish i.e _ = _
    rw [hov2, hdrag]
    simp only [nullish, Option.map_some']
    exact congrArg some (dragDerive_snd _ _ dr)

/-- The drag test used by the witnesses: at `h = 0 ft`, `T = 59 degF`
(so `sigma = 1` and the tapeline ratio is exactly 1), with `dt` chosen so
that the glide-angle argument is exactly `1/2`. -/
def witnessDrag : DragData :=
  { W := 500, h := 0, T := TempArg.raw 59, dh := 100,
    dt := 609600 / 514444, V_Cbg := 100 }

/-- An input record that supplies all four coefficient overrides alongside
a drag test. -/
def witnessInput : InputData :=
  { S := 2, A := some 4, B := none, M0 := some 1, P0 := none, n0 := none,
    C := none, d := 1, drag := some witnessDrag, thrust := none,
    C_D0 := some (1 / 2), e := some (3 / 4), b := some (-1), m := some 2 }

/-- The same input record with no coefficient overrides. -/
def witnessInput2 : InputData :=
  { witnessInput with C_D0 := none, e := none, b := none, m := none }

/-- Witness for claim C5 on `witnessInput2` / `witnessDrag`. -/
theorem claim_C5_witness :
    (mkLowry witnessInput2).C_D0 =
      some (specDragCD0 witnessInput2.S witnessDrag) ∧
    0 < specDragCD0 witnessInput2.S witnessDrag ∧
    (mkLowry witnessInput2).e =
      some (specDragE witnessInput2.S (mkLowry witnessInput2).A witnessDrag) :=
  claim_C5_drag_plate witnessInput2 witnessDrag rfl rfl rfl
    (by norm_num [witnessDrag])
    (by
      simp only [witnessDrag, density]
      rw [relativeDensity_sl59]
      norm_num [rho0])
    (by norm_num [witnessInput2, witnessInput])
    (by
      simp only [testVbg, witnessDrag, tas]
      rw [relativeDensity_sl59, Real.sqrt_one]
      norm_num [knotToFps])
    (by
      simp only [testGamma, testVbg, witnessDrag, tas, tapeline, flightAngle,
        degFtoK, standardTemperatureK, T0K, lapseRateKperFt]
      rw [relativeDensity_sl59, Real.sqrt_one]
      rw [Real.arcsin_pos]
      norm_num [knotToFps])
    (by
      simp only [testGamma, testVbg, witnessDrag, tas, tapeline, flightAngle,
        degFtoK, standardTemperatureK, T0K, lapseRateKperFt]
      rw [relativeDensity_sl59, Real.sqrt_one]
      rw [Real.arcsin_lt_pi_div_two]
      norm_num [knotToFps])

/-- `x ?? y` twice with the same fallback is the same as once. -/
lemma nullish_nullish (a b : Option ℝ) :
    nullish (nullish a b) b = nullish a b := by
  cases a <;> cases b <;> rfl

/-- Claim C7: a plate coefficient supplied on the input record wins over
the flight-test derivation (last write wins), and re-supplying the
coefficients the constructor produced leaves the constructed instance
unchanged (override idempotence). -/
theorem claim_C7_overrides (i : InputData) :
    (∀ x, i.C_D0 = some x → (mkLowry i).C_D0 = some x) ∧
    (∀ x, i.e = some x → (mkLowry i).e = some x) ∧
    (∀ x, i.b = some x → (mkLowry i).b = some x) ∧
    (∀ x, i.m = some x → (mkLowry i).m = some x) ∧
    mkLowry { i with
      C_D0 := (mkLowry i).C_D0
      e := (mkLowry i).e
      b := (mkLowry i).b
      m := (mkLowry i).m } = mkLowry i := by
  refine ⟨?_, ?_, ?_, ?_, ?_⟩
  · intro x hx
    show nullish i.C_D0 _ = _
    rw [hx]
    rfl
  · intro x hx
    show nullish i.e _ = _
    rw [hx]
    rfl
  · intro x hx
    show nullish i.b _ = _
    rw [hx]
    rfl
  · intro x hx
    show nullish i.m _ = _
    rw [hx]
    rfl
  · simp only [mkLowry, nullish_nullish]

/-- Witness for claim C7 on `witnessInput` (all four overrides supplied
alongside the drag test). -/
theorem claim_C7_witness :
    (mkLowry witnessInput).C_D0 = some (1 / 2) ∧
    (mkLowry witnessInput).e = some (3 / 4) ∧
    (mkLowry witnessInput).b = some (-1) ∧
    (mkLowry witnessInput).m = some 2 ∧
    mkLowry { witnessInput with
      C_D0 := (mkLowry witnessInput).C_D0
      e := (mkLowry witnessInput).e
      b := (mkLowry witnessInput).b
      m := (mkLowry witnessInput).m } = mkLowry witnessInput :=
  ⟨(claim_C7_overrides witnessInput).1 _ rfl,
   (claim_C7_overrides witnessInput).2.1 _ rfl,
   (claim_C7_overrides witnessInput).2.2.1 _ rfl,
   (claim_C7_overrides witnessInput).2.2.2.1 _ rfl,
   (claim_C7_overrides witnessInput).2.2.2.2⟩

end

end LowrySpec
